import Mathlib

/-!
Verification of the Options-Scanner streaming pipeline.

The Lean definitions below are a shallow embedding of the Python sources:
`src/strategy.py` (momentum engine), `src/main.py` (orchestrator),
`src/redis_pubsub.py` (distribution bus) and `src/polygon_ws.py`
(feed connector).  Prices are modelled as rationals, timestamps as
natural numbers of milliseconds since the Unix epoch, and Python
exceptions as an explicit `Except` result.
-/

namespace OptionsScanner

/-- A trade tick as consumed by `MomentumScanner.evaluate_tick`:
field `sym` is the raw symbol string, `p` the price, `t` the epoch
timestamp in milliseconds, and `s` the trade size (Python reads it
with `tick.get("s", 0)`, so a missing size is already 0 here). -/
structure Tick where
  sym : String
  p : ℚ
  t : ℕ
  s : ℕ
deriving DecidableEq, Repr

/-- `self.MOMENTUM_THRESHOLD = 1.5` in `MomentumScanner.__init__`. -/
def MOMENTUM_THRESHOLD : ℚ := 1.5

/-- `self.VOLUME_THRESHOLD = 1000`. -/
def VOLUME_THRESHOLD : ℕ := 1000

/-- `self.TARGET_HOUR = 15`. -/
def TARGET_HOUR : ℕ := 15

/-- `self.TARGET_MINUTE_START = 45`. -/
def TARGET_MINUTE_START : ℕ := 45

/-- `self.TARGET_MINUTE_END = 59`. -/
def TARGET_MINUTE_END : ℕ := 59

/-- `self.HISTORY_WINDOW = 5`. -/
def HISTORY_WINDOW : ℕ := 5

/-- The mutable state of a `MomentumScanner` instance:
`tick_history : Dict[str, List[dict]]` (total map, missing keys read
as `[]` exactly like `dict.get(symbol, [])`) and
`spy_price : Optional[float]`. -/
structure ScannerState where
  tickHistory : String → List Tick
  spyPrice : Option ℚ

/-- The state built by `MomentumScanner.__init__`. -/
def initialScanner : ScannerState := ⟨fun _ => [], none⟩

/-- `MomentumScanner.update_spy`: `self.spy_price = tick["p"]`. -/
def updateSpy (st : ScannerState) (tick : Tick) : ScannerState :=
  { st with spyPrice := some tick.p }

/-- Python exceptions that the embedded code can raise. -/
inductive PyExc where
  | zeroDivisionError
  | typeError (msg : String)
  | attributeError (msg : String)
  | redisError (msg : String)
deriving DecidableEq, Repr

/-- Python `/` on floats: raises `ZeroDivisionError` when the divisor
is zero, otherwise divides. -/
def pyDiv (a b : ℚ) : Except PyExc ℚ :=
  if b = 0 then .error .zeroDivisionError else .ok (a / b)

/-- `MomentumScanner._is_momentum_up`.  Reads the CURRENT history of
the symbol (`self.tick_history.get(symbol, [])`), fails when fewer
than `HISTORY_WINDOW` entries exist, otherwise checks
`all(current_price > prev_price for prev_price in history[-HISTORY_WINDOW:])`. -/
def isMomentumUp (st : ScannerState) (symbol : String) (currentPrice : ℚ) : Bool :=
  let history := st.tickHistory symbol
  if history.length < HISTORY_WINDOW then false
  else
    let recentPrices := (history.drop (history.length - HISTORY_WINDOW)).map Tick.p
    recentPrices.all fun prevPrice => decide (prevPrice < currentPrice)

/-- `MomentumScanner._in_final_15_minutes`: convert the millisecond
timestamp to a UTC wall clock (`datetime.fromtimestamp(ts / 1000, utc)`;
Unix time has no leap seconds, so hour and minute are the plain
quotient/remainder below) and test
`dt.hour == 15 and 45 <= dt.minute <= 59`. -/
def inFinal15Minutes (timestamp : ℕ) : Bool :=
  let hour := timestamp / 3600000 % 24
  let minute := timestamp / 60000 % 60
  hour == TARGET_HOUR &&
    (decide (TARGET_MINUTE_START ≤ minute) && decide (minute ≤ TARGET_MINUTE_END))

/-- `MomentumScanner._calculate_relative_strength`:
`stock_return = (price - base_price) / base_price`;
`spy_return = (self.spy_price - base_price) / base_price if self.spy_price else 0`
(note the Python truthiness test: `None` AND a stored price of `0.0`
both take the `else 0` branch); result `(stock_return - spy_return) * 100`. -/
def calcRelStrength (st : ScannerState) (price basePrice : ℚ) : Except PyExc ℚ :=
  match pyDiv (price - basePrice) basePrice with
  | .error e => .error e
  | .ok stockReturn =>
    match (match st.spyPrice with
           | some sp => if sp = 0 then Except.ok 0 else pyDiv (sp - basePrice) basePrice
           | none => Except.ok (0 : ℚ)) with
    | .error e => .error e
    | .ok spyReturn => .ok ((stockReturn - spyReturn) * 100)

/-- The two history-maintenance lines at the top of
`MomentumScanner.evaluate_tick`: append the tick, then
`if len(history) > HISTORY_WINDOW * 2: history = history[-HISTORY_WINDOW:]`. -/
def compactedAppend (history : List Tick) (tick : Tick) : List Tick :=
  let appended := history ++ [tick]
  if HISTORY_WINDOW * 2 < appended.length then
    appended.drop (appended.length - HISTORY_WINDOW)
  else appended

/-- `MomentumScanner.evaluate_tick`.  Returns the updated scanner
state together with the Python result: `.ok b` when the method returns
the boolean `b`, `.error e` when it raises.  The history mutation is
performed first, exactly as in the source, so it survives a raise. -/
def evaluateTick (st : ScannerState) (tick : Tick) (basePrice : ℚ) :
    ScannerState × Except PyExc Bool :=
  let symbol := tick.sym
  let price := tick.p
  let timestamp := tick.t
  let size := tick.s
  let st1 : ScannerState :=
    { st with tickHistory :=
        fun s => if s = symbol then compactedAppend (st.tickHistory symbol) tick
                 else st.tickHistory s }
  let result : Except PyExc Bool :=
    if st1.spyPrice.isNone || !inFinal15Minutes timestamp then .ok false
    else
      match calcRelStrength st1 price basePrice with
      | .error e => .error e
      | .ok relStrength =>
        if relStrength < MOMENTUM_THRESHOLD then .ok false
        else if size < VOLUME_THRESHOLD then .ok false
        else if !isMomentumUp st1 symbol price then .ok false
        else .ok true
  (st1, result)

/-- `(evaluateTick ..).2 = .ok true`, i.e. the method printed the
entry-signal line and returned `True`. -/
def signals (st : ScannerState) (tick : Tick) (basePrice : ℚ) : Bool :=
  match (evaluateTick st tick basePrice).2 with
  | .ok true => true
  | _ => false

/-! ### Orchestrator (src/main.py) -/

/-- ASCII upper-casing of one character, as Python's `str.upper`
does on the ASCII symbols this system handles. -/
def upperChar (c : Char) : Char :=
  if 97 ≤ c.toNat && c.toNat ≤ 122 then Char.ofNat (c.toNat - 32) else c

/-- Python `str.upper` on an ASCII string. -/
def pyUpper (s : String) : String := ⟨s.data.map upperChar⟩

/-- `TradingBot.__init__`: the static `base_prices` table. -/
def basePricesTable : List (String × ℚ) :=
  [("SPY", 530), ("AAPL", 185), ("MSFT", 430), ("NVDA", 1100), ("TSLA", 185)]

/-- Python `dict.get`: first matching key, `None` when absent. -/
def dictGet (d : List (String × ℚ)) (k : String) : Option ℚ :=
  (d.find? fun kv => kv.1 == k).map Prod.snd

/-- `TradingBot.handle_tick` acting on the scanner state.  A typed
`Tick` always carries `sym` and `p`, so `validate_tick` passes here.
The symbol is upper-cased (`tick["sym"].upper()`) for the SPY test and
the base-price lookup, but the original `tick` object is what is
passed on to `evaluate_tick`.  The walrus guard
`if base_price := self.base_prices.get(symbol):` skips evaluation when
the entry is missing OR equal to `0` (Python falsiness).  The
`try/except` around evaluation swallows any raised exception, keeping
whatever in-place history mutation already happened. -/
def handleTick (scanner : ScannerState) (tick : Tick) : ScannerState :=
  let symbol := pyUpper tick.sym
  if symbol == "SPY" then updateSpy scanner tick
  else
    match dictGet basePricesTable symbol with
    | some basePrice =>
        if basePrice == 0 then scanner
        else (evaluateTick scanner tick basePrice).1
    | none => scanner

/-! ### Distribution bus (src/redis_pubsub.py) -/

/-- A Python value handed to `json.dumps`.  `pyset` stands for the
value kinds the encoder cannot serialize (Python raises `TypeError`
for them). -/
inductive PyVal where
  | pynone
  | pybool (b : Bool)
  | pystr (s : String)
  | pynum (q : ℚ)
  | pylist (xs : List PyVal)
  | pydict (kvs : List (String × PyVal))
  | pyset (xs : List PyVal)

mutual

/-- Whether `json.dumps` succeeds on the value. -/
def jsonSerializable : PyVal → Bool
  | .pynone => true
  | .pybool _ => true
  | .pystr _ => true
  | .pynum _ => true
  | .pylist xs => jsonSerializableList xs
  | .pydict kvs => jsonSerializableKVs kvs
  | .pyset _ => false

/-- Serializability of every element of a list. -/
def jsonSerializableList : List PyVal → Bool
  | [] => true
  | x :: xs => jsonSerializable x && jsonSerializableList xs

/-- Serializability of every value of a string-keyed dict. -/
def jsonSerializableKVs : List (String × PyVal) → Bool
  | [] => true
  | kv :: kvs => jsonSerializable kv.2 && jsonSerializableKVs kvs

end

mutual

/-- The JSON text produced for a serializable value. -/
def pyEncode : PyVal → String
  | .pynone => "null"
  | .pybool b => if b then "true" else "false"
  | .pystr s => "\"" ++ s ++ "\""
  | .pynum q => toString q
  | .pylist xs => "[" ++ pyEncodeList xs ++ "]"
  | .pydict kvs => "\x7b" ++ pyEncodeKVs kvs ++ "\x7d"
  | .pyset _ => ""

/-- Comma-separated encoding of list elements. -/
def pyEncodeList : List PyVal → String
  | [] => ""
  | [x] => pyEncode x
  | x :: xs => pyEncode x ++ ", " ++ pyEncodeList xs

/-- Comma-separated encoding of dict entries. -/
def pyEncodeKVs : List (String × PyVal) → String
  | [] => ""
  | [kv] => "\"" ++ kv.1 ++ "\": " ++ pyEncode kv.2
  | kv :: kvs => "\"" ++ kv.1 ++ "\": " ++ pyEncode kv.2 ++ ", " ++ pyEncodeKVs kvs

end

/-- `json.dumps`: the serialized text, or a raised `TypeError` for a
non-serializable value.  (The `pyset` branch of `pyEncode` is never
reached on the `.ok` path.) -/
def jsonDumps (v : PyVal) : Except PyExc String :=
  if jsonSerializable v then .ok (pyEncode v)
  else .error (.typeError "Object is not JSON serializable")

/-- Outcome of the underlying `redis.Redis.publish` call: delivered to
some number of subscribers, or a raised `redis.RedisError`. -/
inductive TransportOutcome where
  | delivered (subscribers : ℕ)
  | failRedis (msg : String)
deriving DecidableEq, Repr

/-- `RedisPubSub.publish_tick` (the decorated body; the
`_ensure_connection` ping is assumed alive, which is the favourable
case for the spec's claim).  The `try` body runs
`self._redis_client.publish(channel, json.dumps(data))`.  A raised
exception is matched against the clauses in order:
`except redis.RedisError` catches transport errors and returns
`False`; the second clause names `json.JSONEncodeError`, an attribute
the `json` module does not define, so merely evaluating that clause
raises `AttributeError` — hence a serialization `TypeError` escapes as
a raised `AttributeError` instead of producing `False`. -/
def publishTick (transport : TransportOutcome) (symbol : String) (data : PyVal) :
    Except PyExc Bool :=
  let _channel := "tick:" ++ symbol.toLower
  match jsonDumps data with
  | .error e =>
      match e with
      | .redisError _ => .ok false
      | _ => .error (.attributeError "module json has no attribute JSONEncodeError")
  | .ok _payload =>
      match transport with
      | .failRedis _ => .ok false
      | .delivered _ => .ok true

/-- One message delivered by `pubsub.listen()`: its wall-clock arrival
time (the value `time.time()` reads when the loop body runs), its
Redis message type, and its data payload. -/
structure BusMsg where
  time : ℚ
  typ : String
  data : String
deriving DecidableEq, Repr

/-- Python truthiness of the `timeout` argument: `None` and `0` are
falsy, any other number is truthy. -/
def timeoutTruthy : Option ℚ → Bool
  | none => false
  | some q => decide (q ≠ 0)

/-- The message loop of `RedisPubSub.subscribe_to`, driven by the
(finite) trace of messages that `pubsub.listen()` delivers; the end of
the trace models the generator still blocking with no further message
ever arriving.  Per message, the code first tests
`if timeout and (time.time() - start_time) > timeout: break`, then
skips non-`"message"` entries, then feeds the payload to the callback
(decode/callback exceptions are caught and only skip the message —
they do not affect the control flow modelled here).  Returns the list
of messages handed to the callback and, when the loop exited through
the timeout `break`, the time at which it did. -/
def subscribeLoop (timeout : Option ℚ) (startTime : ℚ) :
    List BusMsg → List BusMsg × Option ℚ
  | [] => ([], none)
  | m :: rest =>
    if timeoutTruthy timeout && decide (timeout.getD 0 < m.time - startTime) then
      ([], some m.time)
    else if m.typ != "message" then subscribeLoop timeout startTime rest
    else
      let r := subscribeLoop timeout startTime rest
      (m :: r.1, r.2)

/-! ### Feed connector (src/polygon_ws.py) -/

/-- `RECONNECT_DELAY = 5` (seconds). -/
def RECONNECT_DELAY : ℕ := 5

/-- `MAX_RECONNECT_ATTEMPTS = 5`. -/
def MAX_RECONNECT_ATTEMPTS : ℕ := 5

/-- The connector state touched by the reconnect logic:
`self.reconnect_attempts` and `self.should_reconnect`. -/
structure WSClientState where
  reconnectAttempts : ℕ
  shouldReconnect : Bool
deriving DecidableEq, Repr

/-- `PolygonWebSocketClient.on_close`: when reconnection is still
allowed and the attempt counter is below the cap, increment it, sleep
`RECONNECT_DELAY`, and call `run()` again — modelled as emitting
`some RECONNECT_DELAY` (a new connection attempt with its fixed
delay).  Otherwise nothing further happens: no attempt is initiated
(`none`) and the state is left as is. -/
def onCloseStep (s : WSClientState) : WSClientState × Option ℕ :=
  if s.shouldReconnect && decide (s.reconnectAttempts < MAX_RECONNECT_ATTEMPTS) then
    ({ s with reconnectAttempts := s.reconnectAttempts + 1 }, some RECONNECT_DELAY)
  else (s, none)

/-- `PolygonWebSocketClient.on_open`: `self.reconnect_attempts = 0`. -/
def onOpenStep (s : WSClientState) : WSClientState :=
  { s with reconnectAttempts := 0 }

/-- Folding `on_close` over `k` consecutive connection failures with
no intervening successful open; collects the delays of the connection
attempts initiated along the way. -/
def runConsecutiveFailures (s : WSClientState) : ℕ → WSClientState × List ℕ
  | 0 => (s, [])
  | k + 1 =>
    let r := onCloseStep s
    let rest := runConsecutiveFailures r.1 k
    (rest.1, (match r.2 with | some d => [d] | none => []) ++ rest.2)

/-- The module-level names bound in `redis_pubsub.py` when it is
imported (its `if __name__ == "__main__"` block does not run on
import): the imports `redis`, `json`, `logging`, `Any`, `Callable`,
`Dict`, `Optional`, `wraps`, `time`, plus `logger` and the class
`RedisPubSub`. -/
def redisPubsubModuleNames : List String :=
  ["redis", "json", "logging", "Any", "Callable", "Dict", "Optional",
   "wraps", "time", "logger", "RedisPubSub"]

/-- The attributes of the `RedisPubSub` class itself. -/
def redisPubSubClassMethods : List String :=
  ["__init__", "_connect", "_ensure_connection", "publish_tick",
   "subscribe_to", "close"]

/-- Python `from module import name`: succeeds only when `name` is a
module-level binding. -/
def importFromModule (moduleNames : List String) (name : String) : Option String :=
  if moduleNames.contains name then some name else none

/-- Whether `polygon_ws.py` survives its import section: its line
`from redis_pubsub import publish_tick` must resolve, otherwise the
module load dies with `ImportError` before any handler is defined. -/
def polygonWsModuleLoads : Bool :=
  (importFromModule redisPubsubModuleNames "publish_tick").isSome

/-- An inbound feed frame as seen by
`PolygonWebSocketClient.process_tick`: `ev` is the event tag. -/
structure Frame where
  ev : String
  sym : String
deriving DecidableEq, Repr

/-- Whether the connector's forwarding path publishes a frame to the
bus: the module must have loaded at all, and `process_tick` forwards
only frames with `tick.get('ev') == 'T'`. -/
def processTickPublishes (moduleLoaded : Bool) (f : Frame) : Bool :=
  moduleLoaded && (f.ev == "T")

/-! ### Helper lemmas -/

/-- The state returned by `evaluateTick` updates the history at the
tick's own (raw) symbol and nothing else. -/
theorem evaluateTick_fst (st : ScannerState) (tick : Tick) (b : ℚ) :
    (evaluateTick st tick b).1.tickHistory
      = fun s => if s = tick.sym then compactedAppend (st.tickHistory tick.sym) tick
                 else st.tickHistory s := rfl

/-- `evaluateTick` leaves the reference price alone. -/
theorem evaluateTick_fst_spy (st : ScannerState) (tick : Tick) (b : ℚ) :
    (evaluateTick st tick b).1.spyPrice = st.spyPrice := rfl

/-- The history at the tick's own symbol after `evaluateTick`. -/
theorem evaluateTick_history_self (st : ScannerState) (tick : Tick) (b : ℚ) :
    (evaluateTick st tick b).1.tickHistory tick.sym
      = compactedAppend (st.tickHistory tick.sym) tick := by
  rw [evaluateTick_fst]; simp

/-- Histories of other symbols are untouched by `evaluateTick`. -/
theorem evaluateTick_history_other (st : ScannerState) (tick : Tick) (b : ℚ)
    (s : String) (hs : s ≠ tick.sym) :
    (evaluateTick st tick b).1.tickHistory s = st.tickHistory s := by
  rw [evaluateTick_fst]; simp [hs]

/-- The compacted append always ends with the tick just appended. -/
theorem compactedAppend_suffix (h : List Tick) (t : Tick) :
    ∃ g, compactedAppend h t = g ++ [t] := by
  unfold compactedAppend
  by_cases hlen : HISTORY_WINDOW * 2 < (h ++ [t]).length
  · rw [if_pos hlen]
    refine ⟨h.drop ((h ++ [t]).length - HISTORY_WINDOW), ?_⟩
    rw [List.drop_append_of_le_length]
    simp only [List.length_append, List.length_cons, List.length_nil, HISTORY_WINDOW] at hlen ⊢
    omega
  · exact ⟨h, by rw [if_neg hlen]⟩

/-- The element appended at the end survives any `drop` that keeps at
least one element. -/
theorem last_mem_drop {α : Type} :
    ∀ (g : List α) (n : ℕ), n ≤ g.length → ∀ a : α, a ∈ (g ++ [a]).drop n
  | _, 0, _, a => by simp
  | [], n + 1, h, a => by simp at h
  | b :: g, n + 1, h, a => by
      simpa using last_mem_drop g n (by simpa using h) a

/-- Length bound for the compacted append. -/
theorem compactedAppend_length_le (h : List Tick) (t : Tick)
    (hlen : h.length ≤ 2 * HISTORY_WINDOW) :
    (compactedAppend h t).length ≤ 2 * HISTORY_WINDOW := by
  unfold compactedAppend
  by_cases h10 : HISTORY_WINDOW * 2 < (h ++ [t]).length
  · rw [if_pos h10]
    simp [HISTORY_WINDOW] at h10 ⊢
    omega
  · rw [if_neg h10]
    simp [HISTORY_WINDOW] at h10 ⊢
    omega

/-- When the history of a symbol ends with the current tick itself,
`_is_momentum_up` cannot succeed: the comparison
`current_price > prev_price` is run against the current price too. -/
theorem isMomentumUp_of_ends_with_self (st : ScannerState) (sym : String)
    (tick : Tick) (g : List Tick) (hh : st.tickHistory sym = g ++ [tick]) :
    isMomentumUp st sym tick.p = false := by
  simp only [isMomentumUp]
  rw [hh]
  by_cases hlen : (g ++ [tick]).length < HISTORY_WINDOW
  · rw [if_pos hlen]
  · rw [if_neg hlen]
    apply List.all_eq_false.mpr
    refine ⟨tick.p, List.mem_map_of_mem Tick.p ?_, by simp⟩
    apply last_mem_drop
    simp only [List.length_append, List.length_cons, List.length_nil,
      HISTORY_WINDOW] at hlen ⊢
    omega

/-! ### Claims -/

/-- Claim C7: while the reference (SPY) price is still undefined,
`evaluate_tick` returns `False` whatever the tick's symbol, price,
size or timestamp and whatever the base price. -/
theorem C7_undefined_reference_rejects (st : ScannerState) (tick : Tick)
    (b : ℚ) (h : st.spyPrice = none) :
    (evaluateTick st tick b).2 = .ok false := by
  simp [evaluateTick, h]

/-- Witness for C7 at a concrete input. -/
theorem C7_undefined_reference_rejects_witness :
    initialScanner.spyPrice = none ∧
      (evaluateTick initialScanner ⟨"AAPL", 190, 56700000, 2000⟩ 185).2 = .ok false :=
  ⟨rfl, C7_undefined_reference_rejects initialScanner ⟨"AAPL", 190, 56700000, 2000⟩ 185 rfl⟩

/-- Claim C6: `evaluate_tick` records the tick into the history of its
(raw) symbol unconditionally: the new history is exactly the compacted
append, the tick is a member of it, other symbols are untouched, and
the resulting state does not depend on the base price (hence not on
which check rejected or whether the call raised). -/
theorem C6_append_unconditional (st : ScannerState) (tick : Tick) (b : ℚ) :
    (evaluateTick st tick b).1.tickHistory tick.sym
        = compactedAppend (st.tickHistory tick.sym) tick
    ∧ tick ∈ (evaluateTick st tick b).1.tickHistory tick.sym
    ∧ (∀ s, s ≠ tick.sym →
        (evaluateTick st tick b).1.tickHistory s = st.tickHistory s)
    ∧ ∀ b', (evaluateTick st tick b).1 = (evaluateTick st tick b').1 := by
  refine ⟨evaluateTick_history_self st tick b, ?_, ?_, fun b' => rfl⟩
  · rw [evaluateTick_history_self]
    obtain ⟨g, hg⟩ := compactedAppend_suffix (st.tickHistory tick.sym) tick
    rw [hg]
    simp
  · exact fun s hs => evaluateTick_history_other st tick b s hs

/-- Witness for C6: a tick that fails the volume check (size 0) is
still recorded. -/
theorem C6_append_unconditional_witness :
    (evaluateTick initialScanner ⟨"TSLA", 190, 56700000, 0⟩ 185).1.tickHistory "TSLA"
        = compactedAppend (initialScanner.tickHistory "TSLA") ⟨"TSLA", 190, 56700000, 0⟩
    ∧ (⟨"TSLA", 190, 56700000, 0⟩ : Tick)
        ∈ (evaluateTick initialScanner ⟨"TSLA", 190, 56700000, 0⟩ 185).1.tickHistory "TSLA"
    ∧ (evaluateTick initialScanner ⟨"TSLA", 190, 56700000, 0⟩ 185).1.tickHistory "AAPL"
        = initialScanner.tickHistory "AAPL" := by
  obtain ⟨h1, h2, h3, _⟩ :=
    C6_append_unconditional initialScanner ⟨"TSLA", 190, 56700000, 0⟩ 185
  exact ⟨h1, h2, h3 "AAPL" (by decide)⟩

/-- Claim C4: per symbol the stored history length stays ≤ 2N across
`evaluate_tick` (N = `HISTORY_WINDOW` = 5), and when the append makes
it exceed 2N the history is compacted to a suffix of the appended list
(the most recent entries, insertion order kept) of length exactly N. -/
theorem C4_history_bound_and_compaction (st : ScannerState) (tick : Tick)
    (b : ℚ) (sym : String) :
    ((st.tickHistory sym).length ≤ 2 * HISTORY_WINDOW →
      ((evaluateTick st tick b).1.tickHistory sym).length ≤ 2 * HISTORY_WINDOW)
    ∧ (2 * HISTORY_WINDOW < (st.tickHistory tick.sym).length + 1 →
        (evaluateTick st tick b).1.tickHistory tick.sym
            <:+ st.tickHistory tick.sym ++ [tick]
        ∧ ((evaluateTick st tick b).1.tickHistory tick.sym).length
            = HISTORY_WINDOW) := by
  constructor
  · intro hle
    by_cases hs : sym = tick.sym
    · subst hs
      rw [evaluateTick_history_self]
      exact compactedAppend_length_le _ _ hle
    · rw [evaluateTick_history_other st tick b sym hs]
      exact hle
  · intro hgt
    rw [evaluateTick_history_self]
    unfold compactedAppend
    rw [if_pos (by simp [HISTORY_WINDOW] at hgt ⊢; omega)]
    refine ⟨List.drop_suffix _ _, ?_⟩
    simp [HISTORY_WINDOW] at hgt ⊢
    omega

/-- Witness for C4: a history already holding 2N = 10 ticks is clipped
back to exactly N = 5 entries by the next append. -/
theorem C4_history_bound_and_compaction_witness :
    (((fun _ => List.replicate 10 (⟨"A", 1, 0, 0⟩ : Tick)) : String → List Tick) "A").length
        ≤ 2 * HISTORY_WINDOW
    ∧ 2 * HISTORY_WINDOW
        < ((({ tickHistory := fun _ => List.replicate 10 (⟨"A", 1, 0, 0⟩ : Tick),
               spyPrice := none } : ScannerState).tickHistory "A").length + 1)
    ∧ ((evaluateTick
          { tickHistory := fun _ => List.replicate 10 (⟨"A", 1, 0, 0⟩ : Tick),
            spyPrice := none } ⟨"A", 2, 0, 0⟩ 1).1.tickHistory "A").length
        ≤ 2 * HISTORY_WINDOW
    ∧ (evaluateTick
          { tickHistory := fun _ => List.replicate 10 (⟨"A", 1, 0, 0⟩ : Tick),
            spyPrice := none } ⟨"A", 2, 0, 0⟩ 1).1.tickHistory "A"
        <:+ ({ tickHistory := fun _ => List.replicate 10 (⟨"A", 1, 0, 0⟩ : Tick),
               spyPrice := none } : ScannerState).tickHistory "A" ++ [⟨"A", 2, 0, 0⟩]
    ∧ ((evaluateTick
          { tickHistory := fun _ => List.replicate 10 (⟨"A", 1, 0, 0⟩ : Tick),
            spyPrice := none } ⟨"A", 2, 0, 0⟩ 1).1.tickHistory "A").length
        = HISTORY_WINDOW := by
  obtain ⟨h1, h2⟩ :=
    C4_history_bound_and_compaction
      { tickHistory := fun _ => List.replicate 10 (⟨"A", 1, 0, 0⟩ : Tick),
        spyPrice := none } ⟨"A", 2, 0, 0⟩ 1 "A"
  have hle : ((List.replicate 10 (⟨"A", 1, 0, 0⟩ : Tick))).length ≤ 2 * HISTORY_WINDOW := by
    simp [HISTORY_WINDOW]
  have hgt : 2 * HISTORY_WINDOW
      < (List.replicate 10 (⟨"A", 1, 0, 0⟩ : Tick)).length + 1 := by
    simp [HISTORY_WINDOW]
  exact ⟨hle, hgt, h1 hle, (h2 hgt).1, (h2 hgt).2⟩

/-- Unfolded form of the result of `evaluateTick`, stated against the
already-updated state (the history append happens first in the
source). -/
theorem evaluateTick_snd (st : ScannerState) (tick : Tick) (b : ℚ) :
    (evaluateTick st tick b).2 =
      if (evaluateTick st tick b).1.spyPrice.isNone || !inFinal15Minutes tick.t then
        .ok false
      else
        match calcRelStrength (evaluateTick st tick b).1 tick.p b with
        | .error e => .error e
        | .ok relStrength =>
          if relStrength < MOMENTUM_THRESHOLD then .ok false
          else if tick.s < VOLUME_THRESHOLD then .ok false
          else if !isMomentumUp (evaluateTick st tick b).1 tick.sym tick.p then .ok false
          else .ok true := rfl

/-- Claim C1 (code bug): on the spec's concrete test input — reference
price 530, base price 1100, current price 1140, size 1200, timestamp
inside the target window, and five prior strictly increasing prices
below 1140 — `evaluate_tick` returns `False`, not `True`; in fact the
momentum check runs against the last `HISTORY_WINDOW` entries of the
history AFTER the current tick was appended, so the comparison
`current_price > prev_price` always meets the current tick itself and
`evaluate_tick` can never return `True` at all. -/
theorem C1_momentum_check_includes_current_tick :
    (evaluateTick
        { tickHistory := fun s => if s = "NVDA" then
            [⟨"NVDA", 1130, 0, 0⟩, ⟨"NVDA", 1132, 0, 0⟩, ⟨"NVDA", 1134, 0, 0⟩,
             ⟨"NVDA", 1136, 0, 0⟩, ⟨"NVDA", 1138, 0, 0⟩] else [],
          spyPrice := some 530 }
        ⟨"NVDA", 1140, 56700000, 1200⟩ 1100).2 = .ok false
    ∧ ∀ (st : ScannerState) (tick : Tick) (b : ℚ), signals st tick b = false := by
  constructor
  · norm_num [evaluateTick, compactedAppend, calcRelStrength, pyDiv, isMomentumUp,
      inFinal15Minutes, MOMENTUM_THRESHOLD, VOLUME_THRESHOLD, HISTORY_WINDOW,
      TARGET_HOUR, TARGET_MINUTE_START, TARGET_MINUTE_END]
  · intro st tick b
    have hmom : isMomentumUp (evaluateTick st tick b).1 tick.sym tick.p = false := by
      obtain ⟨g, hg⟩ := compactedAppend_suffix (st.tickHistory tick.sym) tick
      exact isMomentumUp_of_ends_with_self _ _ _ g
        (by rw [evaluateTick_history_self, hg])
    unfold signals
    rw [evaluateTick_snd]
    by_cases h1 :
        ((evaluateTick st tick b).1.spyPrice.isNone || !inFinal15Minutes tick.t) = true
    · rw [if_pos h1]
    · rw [if_neg h1]
      cases hcalc : calcRelStrength (evaluateTick st tick b).1 tick.p b with
      | error e => rfl
      | ok relStrength => simp [hmom]

/-- `_calculate_relative_strength` cannot raise when the base price is
nonzero. -/
theorem calcRelStrength_ok (st : ScannerState) (p b : ℚ) (hb : b ≠ 0) :
    ∃ q, calcRelStrength st p b = .ok q := by
  unfold calcRelStrength pyDiv
  cases st.spyPrice with
  | none => simp [hb]
  | some sp =>
    by_cases hz : sp = 0
    · simp [hz, hb]
    · simp [hz, hb]

/-- Claim C9: with `base_price = 0` there is an input (reference price
defined, timestamp inside the window) on which `evaluate_tick` raises
`ZeroDivisionError` in the relative-strength computation — after the
tick was already appended to its symbol's history — while with any
nonzero base price `evaluate_tick` always returns a boolean. -/
theorem C9_division_by_zero_on_zero_base :
    ((evaluateTick { tickHistory := fun _ => [], spyPrice := some 530 }
        ⟨"NVDA", 1140, 56700000, 1200⟩ 0).2 = .error .zeroDivisionError
      ∧ (⟨"NVDA", 1140, 56700000, 1200⟩ : Tick)
          ∈ (evaluateTick { tickHistory := fun _ => [], spyPrice := some 530 }
              ⟨"NVDA", 1140, 56700000, 1200⟩ 0).1.tickHistory "NVDA")
    ∧ ∀ (st : ScannerState) (tick : Tick) (b : ℚ), b ≠ 0 →
        ∃ r, (evaluateTick st tick b).2 = .ok r := by
  refine ⟨⟨?_, ?_⟩, ?_⟩
  · norm_num [evaluateTick, compactedAppend, calcRelStrength, pyDiv,
      inFinal15Minutes, HISTORY_WINDOW, TARGET_HOUR, TARGET_MINUTE_START,
      TARGET_MINUTE_END]
  · norm_num [evaluateTick, compactedAppend, HISTORY_WINDOW]
  · intro st tick b hb
    rw [evaluateTick_snd]
    by_cases h1 :
        ((evaluateTick st tick b).1.spyPrice.isNone || !inFinal15Minutes tick.t) = true
    · rw [if_pos h1]
      exact ⟨false, rfl⟩
    · rw [if_neg h1]
      obtain ⟨q, hq⟩ := calcRelStrength_ok (evaluateTick st tick b).1 tick.p b hb
      rw [hq]
      by_cases h2 : q < MOMENTUM_THRESHOLD
      · exact ⟨false, by simp [h2]⟩
      · by_cases h3 : tick.s < VOLUME_THRESHOLD
        · exact ⟨false, by simp [h2, h3]⟩
        · by_cases h4 :
              (!isMomentumUp (evaluateTick st tick b).1 tick.sym tick.p) = true
          · exact ⟨false, by simp [h2, h3, h4]⟩
          · exact ⟨true, by simp [h2, h3, h4]⟩

/-- Witness for C9's totality half at a concrete nonzero base price. -/
theorem C9_division_by_zero_on_zero_base_witness :
    (1100 : ℚ) ≠ 0
    ∧ ∃ r, (evaluateTick initialScanner ⟨"NVDA", 1140, 56700000, 1200⟩ 1100).2 = .ok r :=
  ⟨by norm_num,
   C9_division_by_zero_on_zero_base.2 initialScanner
     ⟨"NVDA", 1140, 56700000, 1200⟩ 1100 (by norm_num)⟩

/-- Claim C2 (counterexample): with `timeout = 1` second measured from
subscribe time 0, (a) if no message ever arrives the loop never stops
— it stays blocked in `pubsub.listen()` to the end of the trace with
no unsubscription — and (b) a single message arriving at time 3 makes
it stop only then, later than the deadline `0 + 1`. -/
theorem C2_counterexample_no_deadline :
    subscribeLoop (some 1) 0 [] = ([], none)
    ∧ subscribeLoop (some 1) 0 [⟨3, "message", "d"⟩] = ([], some 3)
    ∧ (0 + 1 : ℚ) < 3 := by
  refine ⟨rfl, ?_, by norm_num⟩
  norm_num [subscribeLoop, timeoutTruthy]

/-- Claim C2 (amended): with a truthy (nonzero) timeout `T` the
subscriber stops exactly at the delivery of the first message whose
arrival exceeds `startTime + T` — that message is not processed — and
processes every `"message"`-typed entry delivered before that; if no
message arrives after the deadline it never unsubscribes on its own. -/
theorem C2_timeout_checked_only_on_message (T startTime : ℚ)
    (msgs : List BusMsg) (hT : T ≠ 0) :
    (subscribeLoop (some T) startTime msgs).2
        = ((msgs.find? fun m => decide (T < m.time - startTime)).map BusMsg.time)
    ∧ (subscribeLoop (some T) startTime msgs).1
        = (msgs.takeWhile fun m => !decide (T < m.time - startTime)).filter
            (fun m => m.typ == "message") := by
  induction msgs with
  | nil => simp [subscribeLoop]
  | cons m rest ih =>
    by_cases hlate : T < m.time - startTime
    · simp [subscribeLoop, timeoutTruthy, hT, hlate]
    · by_cases htyp : m.typ = "message"
      · simp [subscribeLoop, timeoutTruthy, hT, hlate, htyp, ih]
      · simp [subscribeLoop, timeoutTruthy, hT, hlate, htyp, ih]

/-- Witness for C2's amended statement: timeout 1 from time 0, one
message inside the deadline (processed) and one at time 3 (stops the
loop there, unprocessed). -/
theorem C2_timeout_checked_only_on_message_witness :
    (1 : ℚ) ≠ 0
    ∧ ((subscribeLoop (some 1) 0
          [⟨1/2, "message", "a"⟩, ⟨3, "message", "b"⟩]).2
        = ((([⟨1/2, "message", "a"⟩, ⟨3, "message", "b"⟩] : List BusMsg).find?
            fun m => decide ((1 : ℚ) < m.time - 0)).map BusMsg.time)
      ∧ (subscribeLoop (some 1) 0
          [⟨1/2, "message", "a"⟩, ⟨3, "message", "b"⟩]).1
        = (([⟨1/2, "message", "a"⟩, ⟨3, "message", "b"⟩] : List BusMsg).takeWhile
            fun m => !decide ((1 : ℚ) < m.time - 0)).filter
              (fun m => m.typ == "message")) :=
  ⟨by norm_num,
   C2_timeout_checked_only_on_message 1 0
     [⟨1/2, "message", "a"⟩, ⟨3, "message", "b"⟩] (by norm_num)⟩

/-- Claim C3 (code bug): a serialization failure in `publish_tick` is
NOT reported as `False`: `json.dumps` raises `TypeError`, the first
`except` clause does not match it, and evaluating the second clause's
`json.JSONEncodeError` raises `AttributeError` to the caller.  A
transport failure (`redis.RedisError`) does return `False`, and a
successful publish returns `True` with no retry in any case. -/
theorem C3_serialization_error_escapes :
    publishTick (.delivered 0) "AAPL"
        (.pydict [("sym", .pystr "AAPL"), ("bad", .pyset [])])
      = .error (.attributeError "module json has no attribute JSONEncodeError")
    ∧ publishTick (.failRedis "connection refused") "AAPL"
        (.pydict [("sym", .pystr "AAPL")]) = .ok false
    ∧ publishTick (.delivered 2) "AAPL"
        (.pydict [("sym", .pystr "AAPL")]) = .ok true := by
  refine ⟨?_, ?_, ?_⟩ <;>
    simp [publishTick, jsonDumps, jsonSerializable, jsonSerializableKVs,
      jsonSerializableList]

/-- Claim C5 (counterexample): symbols are NOT canonicalized before
the history is keyed.  A tick with symbol `"nvda"` passes the
upper-cased base-price lookup but is recorded under the raw key
`"nvda"`: the canonical `"NVDA"` entry stays empty, and a later
`"NVDA"` tick starts its own separate one-element history. -/
theorem C5_case_variants_use_distinct_histories :
    (handleTick initialScanner ⟨"nvda", 1140, 0, 500⟩).tickHistory "NVDA" = []
    ∧ (handleTick initialScanner ⟨"nvda", 1140, 0, 500⟩).tickHistory "nvda"
        = [⟨"nvda", 1140, 0, 500⟩]
    ∧ (handleTick (handleTick initialScanner ⟨"nvda", 1140, 0, 500⟩)
          ⟨"NVDA", 1141, 0, 500⟩).tickHistory "NVDA"
        = [⟨"NVDA", 1141, 0, 500⟩] := by
  have hup : pyUpper "nvda" = "NVDA" := by decide
  have hup2 : pyUpper "NVDA" = "NVDA" := by decide
  have hget : dictGet basePricesTable "NVDA" = some 1100 := by decide
  refine ⟨?_, ?_, ?_⟩ <;>
    simp [handleTick, hup, hup2, hget, beq_iff_eq, evaluateTick_fst,
      compactedAppend, HISTORY_WINDOW, initialScanner]

/-- Claim C5 (amended): `handle_tick` upper-cases the symbol only for
the SPY routing test and the base-price lookup; the tick handed to
`evaluate_tick` still carries the raw symbol, which is the key the
history is recorded and evaluated under, so case variants of one
symbol use distinct history entries. -/
theorem C5_history_keyed_by_raw_symbol (scanner : ScannerState) (tick : Tick)
    (bp : ℚ) (hspy : pyUpper tick.sym ≠ "SPY")
    (hbp : dictGet basePricesTable (pyUpper tick.sym) = some bp)
    (hbz : bp ≠ 0) :
    handleTick scanner tick = (evaluateTick scanner tick bp).1
    ∧ (handleTick scanner tick).tickHistory tick.sym
        = compactedAppend (scanner.tickHistory tick.sym) tick
    ∧ ∀ s, s ≠ tick.sym →
        (handleTick scanner tick).tickHistory s = scanner.tickHistory s := by
  have heq : handleTick scanner tick = (evaluateTick scanner tick bp).1 := by
    unfold handleTick
    simp [hspy, hbp, beq_iff_eq, hbz]
  refine ⟨heq, ?_, ?_⟩
  · rw [heq, evaluateTick_history_self]
  · intro s hs
    rw [heq, evaluateTick_history_other scanner tick bp s hs]

/-- Witness for C5's amended statement: a lower-case `"nvda"` tick is
recorded under `"nvda"`, leaving `"SPY"` (and every other key)
untouched. -/
theorem C5_history_keyed_by_raw_symbol_witness :
    pyUpper "nvda" ≠ "SPY"
    ∧ dictGet basePricesTable (pyUpper "nvda") = some 1100
    ∧ (1100 : ℚ) ≠ 0
    ∧ handleTick initialScanner ⟨"nvda", 1140, 0, 500⟩
        = (evaluateTick initialScanner ⟨"nvda", 1140, 0, 500⟩ 1100).1
    ∧ (handleTick initialScanner ⟨"nvda", 1140, 0, 500⟩).tickHistory "nvda"
        = compactedAppend (initialScanner.tickHistory "nvda") ⟨"nvda", 1140, 0, 500⟩
    ∧ (handleTick initialScanner ⟨"nvda", 1140, 0, 500⟩).tickHistory "SPY"
        = initialScanner.tickHistory "SPY" := by
  obtain ⟨h1, h2, h3⟩ :=
    C5_history_keyed_by_raw_symbol initialScanner ⟨"nvda", 1140, 0, 500⟩ 1100
      (by decide) (by decide) (by norm_num)
  exact ⟨by decide, by decide, by norm_num, h1, h2, h3 "SPY" (by decide)⟩

/-- Closed form for a run of consecutive connection failures starting
from an attempt counter `a ≤ MAX_RECONNECT_ATTEMPTS` with reconnection
allowed: the counter saturates at the cap and exactly
`min k (MAX_RECONNECT_ATTEMPTS - a)` reconnection attempts are
initiated, each after the fixed `RECONNECT_DELAY`. -/
theorem runConsecutiveFailures_closed_form (k : ℕ) :
    ∀ a : ℕ, a ≤ MAX_RECONNECT_ATTEMPTS →
      runConsecutiveFailures ⟨a, true⟩ k
        = (⟨min (a + k) MAX_RECONNECT_ATTEMPTS, true⟩,
           List.replicate (min k (MAX_RECONNECT_ATTEMPTS - a)) RECONNECT_DELAY) := by
  induction k with
  | zero =>
    intro a ha
    simp [runConsecutiveFailures, Nat.min_eq_left ha]
  | succ k ih =>
    intro a ha
    unfold runConsecutiveFailures onCloseStep
    by_cases hlt : a < MAX_RECONNECT_ATTEMPTS
    · rw [if_pos (by simp [hlt])]
      simp only []
      rw [ih (a + 1) (by omega)]
      refine Prod.ext ?_ ?_
      · simp only [MAX_RECONNECT_ATTEMPTS] at hlt ⊢
        congr 1
        omega
      · simp only [MAX_RECONNECT_ATTEMPTS] at hlt ⊢
        rw [show min (k + 1) (5 - a) = min k (5 - (a + 1)) + 1 by omega,
          List.replicate_succ]
        rfl
    · have ha5 : a = MAX_RECONNECT_ATTEMPTS := by omega
      subst ha5
      rw [if_neg (by simp)]
      simp only []
      rw [ih MAX_RECONNECT_ATTEMPTS le_rfl]
      simp [MAX_RECONNECT_ATTEMPTS]

/-- Claim C8: starting from a freshly-opened connection (attempt
counter 0), a run of consecutive failures initiates at most
`MAX_RECONNECT_ATTEMPTS` = 5 reconnection attempts, each after the
fixed `RECONNECT_DELAY` = 5 s; once the counter has reached the cap
(after the 5 failed reconnection attempts) every further failure
initiates nothing and leaves the state unchanged — the connector is
permanently closed. -/
theorem C8_reconnect_cap_and_fixed_delay (k : ℕ) :
    (runConsecutiveFailures ⟨0, true⟩ k).2
        = List.replicate (min k MAX_RECONNECT_ATTEMPTS) RECONNECT_DELAY
    ∧ (MAX_RECONNECT_ATTEMPTS ≤ k →
        (runConsecutiveFailures ⟨0, true⟩ k).1 = ⟨MAX_RECONNECT_ATTEMPTS, true⟩
        ∧ onCloseStep ⟨MAX_RECONNECT_ATTEMPTS, true⟩
            = (⟨MAX_RECONNECT_ATTEMPTS, true⟩, none)) := by
  have h := runConsecutiveFailures_closed_form k 0 (Nat.zero_le _)
  constructor
  · rw [h]
    simp
  · intro hk
    constructor
    · rw [h]
      simp [Nat.min_eq_right hk]
    · unfold onCloseStep
      simp

/-- Witness for C8 at 7 consecutive failures: exactly 5 attempts were
made, the state is saturated, and one more failure initiates nothing. -/
theorem C8_reconnect_cap_and_fixed_delay_witness :
    MAX_RECONNECT_ATTEMPTS ≤ 7
    ∧ (runConsecutiveFailures ⟨0, true⟩ 7).2
        = List.replicate (min 7 MAX_RECONNECT_ATTEMPTS) RECONNECT_DELAY
    ∧ (runConsecutiveFailures ⟨0, true⟩ 7).1 = ⟨MAX_RECONNECT_ATTEMPTS, true⟩
    ∧ onCloseStep ⟨MAX_RECONNECT_ATTEMPTS, true⟩
        = (⟨MAX_RECONNECT_ATTEMPTS, true⟩, none) := by
  obtain ⟨h1, h2⟩ := C8_reconnect_cap_and_fixed_delay 7
  exact ⟨by decide, h1, (h2 (by decide)).1, (h2 (by decide)).2⟩

/-- Claim C10: `polygon_ws.py` does `from redis_pubsub import
publish_tick`, but `publish_tick` is not a module-level binding of
`redis_pubsub` (it is only a method of the `RedisPubSub` class), so
the import fails, the connector module never loads, and its forwarding
path publishes no frame, ever. -/
theorem C10_publish_tick_import_fails :
    importFromModule redisPubsubModuleNames "publish_tick" = none
    ∧ redisPubSubClassMethods.contains "publish_tick" = true
    ∧ polygonWsModuleLoads = false
    ∧ ∀ f : Frame, processTickPublishes polygonWsModuleLoads f = false := by
  have hl : polygonWsModuleLoads = false := by decide
  refine ⟨by decide, by decide, hl, ?_⟩
  intro f
  simp [processTickPublishes, hl]

end OptionsScanner
